import Mathlib

/-!
Verification of the controller drift-tester telemetry pipeline
(`drift_gui_pygame.py`): device discovery, per-tick raw-snapshot sampling,
stick/trigger normalization, and threshold-based drift classification.
Analog readings are modelled as exact rationals.
-/

namespace DriftTester

/-- Axis index guesses (source lines 129-134). -/
def AXIS_LX : Nat := 0

/-- Left-stick Y axis index (source line 130). -/
def AXIS_LY : Nat := 1

/-- Right-stick X axis index (source line 131). -/
def AXIS_RX : Nat := 2

/-- Right-stick Y axis index (source line 132). -/
def AXIS_RY : Nat := 3

/-- L2 trigger axis index (source line 133). -/
def AXIS_L2 : Nat := 4

/-- R2 trigger axis index (source line 134). -/
def AXIS_R2 : Nat := 5

/-- Button index guesses (source lines 137-150). -/
def BTN_X : Nat := 0

/-- Circle button index (source line 138). -/
def BTN_CIRCLE : Nat := 1

/-- Square button index (source line 139). -/
def BTN_SQUARE : Nat := 2

/-- Triangle button index (source line 140). -/
def BTN_TRIANGLE : Nat := 3

/-- L2-as-button index (source line 143). -/
def BTN_L2 : Nat := 6

/-- R2-as-button index (source line 144). -/
def BTN_R2 : Nat := 7

/-- PS button index (source line 149). -/
def BTN_PS : Nat := 12

/-- Touchpad button index (source line 150). -/
def BTN_TOUCH : Nat := 13

/-- Default deadzone (source line 19). -/
def DEADZONE : ℚ := 0.06

/-- An open joystick handle: capability counts and per-index readers,
mirroring pygame's `get_numaxes`/`get_axis`, `get_numbuttons`/`get_button`,
`get_numhats`/`get_hat`. -/
structure Joystick where
  numaxes : Nat
  numbuttons : Nat
  numhats : Nat
  get_axis : Nat → ℚ
  get_button : Nat → Bool
  get_hat : Nat → Int × Int

/-- `find_joystick` (source lines 78-85): an empty device list clears any
previously held handle (the global is set to `None` whatever it was) and
otherwise the first enumerated device is opened. -/
def find_joystick (_prev : Option Joystick) (devices : List Joystick) : Option Joystick :=
  match devices with
  | [] => none
  | j :: _ => some j

/-- Axis/button/hat counts of the tracked device. -/
structure DeviceCapabilities where
  axes : Nat
  buttons : Nat
  hats : Nat
deriving DecidableEq

/-- Capability counts of the currently open device; all-zero when no device
is open (with no joystick the polling loop reads nothing, source 192-200). -/
def capabilities (joy : Option Joystick) : DeviceCapabilities :=
  match joy with
  | none => ⟨0, 0, 0⟩
  | some j => ⟨j.numaxes, j.numbuttons, j.numhats⟩

/-- One tick's raw readings: ordered axis values, button values, hat
vectors. -/
structure RawSnapshot where
  axes : List ℚ
  buttons : List Bool
  hats : List (Int × Int)
deriving DecidableEq

/-- Per-tick polling (source lines 198-200): reads exactly `numaxes` axis
values, `numbuttons` button values and `numhats` hat vectors; with no
joystick every sequence is empty. -/
def sample (joy : Option Joystick) : RawSnapshot :=
  match joy with
  | none => ⟨[], [], []⟩
  | some j =>
      ⟨(List.range j.numaxes).map j.get_axis,
       (List.range j.numbuttons).map j.get_button,
       (List.range j.numhats).map j.get_hat⟩

/-- Guarded stick-axis read: `axes[i] if len(axes) > i else 0.0`
(source lines 203-206). -/
def axis_or_zero (axes : List ℚ) (i : Nat) : ℚ :=
  if axes.length > i then axes.getD i 0 else 0

/-- Trigger normalization `norm_trigger` (source lines 258-264): inside
`[-1,1]` a value below `-0.2` is rescaled from signed range, otherwise
passed through; outside `[-1,1]` the result is `0.0`. -/
def norm_trigger (v : ℚ) : ℚ :=
  if -1.0 ≤ v ∧ v ≤ 1.0 then
    if v < -0.2 then (v + 1.0) / 2.0
    else v
  else 0.0

/-- Raw L2 value with button fallback (source line 254); pygame's 0/1
button ints are modelled as booleans coerced to `0.0`/`1.0`. -/
def l2_val (s : RawSnapshot) : ℚ :=
  if s.axes.length > AXIS_L2 then s.axes.getD AXIS_L2 0
  else if s.buttons.length > BTN_L2 then (if s.buttons.getD BTN_L2 false then 1 else 0)
  else 0

/-- Raw R2 value with button fallback (source line 255). -/
def r2_val (s : RawSnapshot) : ℚ :=
  if s.axes.length > AXIS_R2 then s.axes.getD AXIS_R2 0
  else if s.buttons.length > BTN_R2 then (if s.buttons.getD BTN_R2 false then 1 else 0)
  else 0

/-- The guard of `highlight_if_button` (source lines 233-235): a button is
considered pressed only if its index exists in the snapshot and reads true. -/
def pressed (buttons : List Bool) (index : Nat) : Bool :=
  if buttons.length > index then buttons.getD index false else false

/-- First hat vector passthrough, `(0,0)` when no hat exists
(source lines 248-249). -/
def dpad_vec (hats : List (Int × Int)) : Int × Int :=
  if hats.length > 0 then hats.getD 0 (0, 0) else (0, 0)

/-- Drift classification (source lines 225-226):
`abs(x) > deadzone or abs(y) > deadzone`, a pure function of its arguments. -/
def drifting (x y deadzone : ℚ) : Bool :=
  decide (|x| > deadzone) || decide (|y| > deadzone)

/-- Mutable engine configuration: deadzone and debug flag
(source lines 123-124). -/
structure EngineConfig where
  deadzone : ℚ
  show_debug : Bool
deriving DecidableEq

/-- The KEYDOWN events the loop distinguishes (source lines 168-182);
`other` stands for every key with no handler. -/
inductive Key where
  | k_d
  | k_up
  | k_down
  | k_v
  | other
deriving DecidableEq

/-- The K_UP handler's deadzone update (source line 172). -/
def decrease (d : ℚ) : ℚ := max 0.0 (d - 0.01)

/-- The K_DOWN handler's deadzone update (source line 174). -/
def increase (d : ℚ) : ℚ := min 0.5 (d + 0.01)

/-- KEYDOWN handling (source lines 168-182): `D` toggles debug, `UP`/`DOWN`
step the deadzone, `V` fires the haptic test which never touches the
config, any other key is ignored. -/
def handle_keydown (c : EngineConfig) (k : Key) : EngineConfig :=
  match k with
  | Key.k_d => { c with show_debug := !c.show_debug }
  | Key.k_up => { c with deadzone := decrease c.deadzone }
  | Key.k_down => { c with deadzone := increase c.deadzone }
  | Key.k_v => c
  | Key.other => c

/-- One stick's normalized state: raw coordinates and the drift flag. -/
structure StickState where
  x : ℚ
  y : ℚ
  drifting : Bool
deriving DecidableEq

/-- The per-tick frame handed to the rendering layer: sticks, triggers,
named buttons, d-pad, capability counts and the config in effect. -/
structure FrameSnapshot where
  left : StickState
  right : StickState
  l2 : ℚ
  r2 : ℚ
  cross : Bool
  circle : Bool
  square : Bool
  triangle : Bool
  touchpad : Bool
  ps : Bool
  dpad : Int × Int
  caps : DeviceCapabilities
  deadzone : ℚ
  show_debug : Bool
deriving DecidableEq

/-- One tick's normalization and classification (source lines 198-267)
assembled into the frame consumed by the drawing code. -/
def normalize_frame (c : EngineConfig) (caps : DeviceCapabilities)
    (s : RawSnapshot) : FrameSnapshot :=
  let lx := axis_or_zero s.axes AXIS_LX
  let ly := axis_or_zero s.axes AXIS_LY
  let rx := axis_or_zero s.axes AXIS_RX
  let ry := axis_or_zero s.axes AXIS_RY
  { left := ⟨lx, ly, drifting lx ly c.deadzone⟩
    right := ⟨rx, ry, drifting rx ry c.deadzone⟩
    l2 := norm_trigger (l2_val s)
    r2 := norm_trigger (r2_val s)
    cross := pressed s.buttons BTN_X
    circle := pressed s.buttons BTN_CIRCLE
    square := pressed s.buttons BTN_SQUARE
    triangle := pressed s.buttons BTN_TRIANGLE
    touchpad := pressed s.buttons BTN_TOUCH
    ps := pressed s.buttons BTN_PS
    dpad := dpad_vec s.hats
    caps := caps
    deadzone := c.deadzone
    show_debug := c.show_debug }

/-- One main-loop iteration (source lines 160-303): the event phase runs
first (source 161-182) and is the only place the config changes; the
polling/normalization/drawing phase (source 195-297) then produces the
frame from the post-event config. -/
def tick (c : EngineConfig) (events : List Key) (joy : Option Joystick) :
    EngineConfig × FrameSnapshot :=
  let c' := events.foldl handle_keydown c
  (c', normalize_frame c' (capabilities joy) (sample joy))

/-- Trigger normalization as the spec words it: three exclusive cases on
the raw value. -/
def normalize_trigger_spec (v : ℚ) : ℚ :=
  if -1.0 ≤ v ∧ v ≤ 1.0 ∧ v < -0.2 then (v + 1.0) / 2.0
  else if -1.0 ≤ v ∧ v ≤ 1.0 ∧ -0.2 ≤ v then v
  else 0.0

/-- Drift classification as the spec words it. -/
def classify_spec (x y d : ℚ) : Prop := |x| > d ∨ |y| > d

/-- The §8 end-to-end scenario device: capabilities 6/14/1, axes
`[0.02, -0.01, 0.9, 0.0, -0.5, 0.8]`, no button pressed, a centered hat. -/
def demo_joystick : Joystick where
  numaxes := 6
  numbuttons := 14
  numhats := 1
  get_axis := fun i => [0.02, -0.01, 0.9, 0.0, -0.5, 0.8].getD i 0
  get_button := fun _ => false
  get_hat := fun _ => (0, 0)

/-- Shared lower bound: the normalized trigger value is at least `-0.2`. -/
lemma norm_trigger_lower (v : ℚ) : -0.2 ≤ norm_trigger v := by
  unfold norm_trigger
  split_ifs with h h2
  · obtain ⟨h1, _⟩ := h
    linarith
  · push_neg at h2
    linarith
  · norm_num

/-- Shared upper bound: the normalized trigger value is at most `1`. -/
lemma norm_trigger_upper (v : ℚ) : norm_trigger v ≤ 1 := by
  unfold norm_trigger
  split_ifs with h h2
  · obtain ⟨_, h1⟩ := h
    linarith
  · obtain ⟨_, h1⟩ := h
    linarith
  · norm_num

/-- On `[-0.2, 1]` trigger normalization is the identity. -/
lemma norm_trigger_id_of (w : ℚ) (h1 : -0.2 ≤ w) (h2 : w ≤ 1) :
    norm_trigger w = w := by
  unfold norm_trigger
  split_ifs with h h3
  · linarith
  · rfl
  · exact absurd ⟨by linarith, by linarith⟩ h

/-- Claim C1: `norm_trigger` follows the dual-range heuristic exactly: for
raw `v` inside `[-1,1]` with `v < -0.2` the output is `(v+1)/2`, inside
`[-1,1]` with `v ≥ -0.2` the output is `v` unchanged, outside `[-1,1]` the
output is `0`; in particular `norm_trigger` maps `-1.0 ↦ 0.0`,
`-0.3 ↦ 0.35`, `0.0 ↦ 0.0`, `0.7 ↦ 0.7`, `1.5 ↦ 0.0`. -/
theorem norm_trigger_matches_spec :
    (∀ v : ℚ, norm_trigger v = normalize_trigger_spec v) ∧
    norm_trigger (-1.0) = 0.0 ∧ norm_trigger (-0.3) = 0.35 ∧
    norm_trigger 0.0 = 0.0 ∧ norm_trigger 0.7 = 0.7 ∧
    norm_trigger 1.5 = 0.0 := by
  refine ⟨fun v => ?_, by norm_num [norm_trigger], by norm_num [norm_trigger],
    by norm_num [norm_trigger], by norm_num [norm_trigger], by norm_num [norm_trigger]⟩
  by_cases hA : -1.0 ≤ v ∧ v ≤ 1.0
  · by_cases hB : v < -0.2
    · have hs : -1.0 ≤ v ∧ v ≤ 1.0 ∧ v < -0.2 := ⟨hA.1, hA.2, hB⟩
      simp only [norm_trigger, normalize_trigger_spec, if_pos hA, if_pos hB, if_pos hs]
    · push_neg at hB
      have hs1 : ¬(-1.0 ≤ v ∧ v ≤ 1.0 ∧ v < -0.2) := by
        intro hc
        linarith [hc.2.2]
      have hs2 : -1.0 ≤ v ∧ v ≤ 1.0 ∧ -0.2 ≤ v := ⟨hA.1, hA.2, hB⟩
      simp only [norm_trigger, normalize_trigger_spec, if_pos hA,
        if_neg (not_lt.mpr hB), if_neg hs1, if_pos hs2]
  · have hs1 : ¬(-1.0 ≤ v ∧ v ≤ 1.0 ∧ v < -0.2) := fun hc => hA ⟨hc.1, hc.2.1⟩
    have hs2 : ¬(-1.0 ≤ v ∧ v ≤ 1.0 ∧ -0.2 ≤ v) := fun hc => hA ⟨hc.1, hc.2.1⟩
    simp only [norm_trigger, normalize_trigger_spec, if_neg hA, if_neg hs1, if_neg hs2]

/-- Claim C2 counterexample: the normalized trigger value is not always in
`[0,1]`: at raw input `-0.1` the output is `-0.1`, which is negative. -/
theorem norm_trigger_output_negative :
    norm_trigger (-0.1) = -0.1 ∧ norm_trigger (-0.1) < 0 := by
  norm_num [norm_trigger]

/-- Claim C2 (amended): for every raw trigger input the normalized value
lies in `[-0.2, 1]` (not `[0,1]`: inputs in `[-0.2, 0)` pass through
unchanged and stay negative); out-of-domain input yields `0`, and a fully
missing input (empty snapshot) yields `0`. -/
theorem norm_trigger_range_with_defaults :
    (∀ v : ℚ, -0.2 ≤ norm_trigger v ∧ norm_trigger v ≤ 1) ∧
    (∀ v : ℚ, v < -1.0 ∨ 1.0 < v → norm_trigger v = 0) ∧
    norm_trigger (l2_val ⟨[], [], []⟩) = 0 ∧
    norm_trigger (r2_val ⟨[], [], []⟩) = 0 := by
  refine ⟨fun v => ⟨norm_trigger_lower v, norm_trigger_upper v⟩,
    fun v hv => ?_,
    by norm_num [norm_trigger, l2_val, AXIS_L2, BTN_L2],
    by norm_num [norm_trigger, r2_val, AXIS_R2, BTN_R2]⟩
  have hout : ¬(-1.0 ≤ v ∧ v ≤ 1.0) := by
    rcases hv with h | h <;> (intro hc; obtain ⟨hc1, hc2⟩ := hc; linarith)
  unfold norm_trigger
  rw [if_neg hout]
  norm_num

/-- Witness for the amended claim C2 at the out-of-domain input `1.5`. -/
theorem norm_trigger_range_with_defaults_witness :
    norm_trigger 1.5 = 0 :=
  norm_trigger_range_with_defaults.2.1 1.5 (Or.inr (by norm_num))

/-- Claim C9: the normalized trigger value always lies in `[-0.2, 1]`, and
the lower end `-0.2` is attained (at raw `-0.2`, passed through unchanged). -/
theorem norm_trigger_range_tight :
    (∀ v : ℚ, -0.2 ≤ norm_trigger v ∧ norm_trigger v ≤ 1) ∧
    norm_trigger (-0.2) = -0.2 :=
  ⟨fun v => ⟨norm_trigger_lower v, norm_trigger_upper v⟩,
    by norm_num [norm_trigger]⟩

/-- Claim C10: trigger normalization is idempotent. -/
theorem norm_trigger_idempotent (v : ℚ) :
    norm_trigger (norm_trigger v) = norm_trigger v :=
  norm_trigger_id_of (norm_trigger v) (norm_trigger_lower v) (norm_trigger_upper v)

/-- Claim C3: for every deadzone `d ∈ [0, 0.5]` and stick reading `(x,y)`,
drift classification returns true iff `|x| > d` or `|y| > d` (strict); it
is a pure function of its three arguments, with no internal state,
smoothing or hysteresis. -/
theorem drifting_iff_classify_spec (d x y : ℚ) (_h0 : 0 ≤ d) (_h1 : d ≤ 0.5) :
    drifting x y d = true ↔ classify_spec x y d := by
  unfold drifting classify_spec
  simp

/-- Witness for claim C3 at deadzone `0.06` and reading `(0.9, 0)`. -/
theorem drifting_iff_classify_spec_witness :
    drifting 0.9 0 0.06 = true :=
  (drifting_iff_classify_spec 0.06 0.9 0 (by norm_num) (by norm_num)).mpr
    (Or.inl (by rw [abs_of_nonneg (by norm_num : (0:ℚ) ≤ 0.9)]; norm_num))

/-- A stick axis whose mapped index is missing reads `0`. -/
lemma axis_or_zero_default (axes : List ℚ) (i : Nat) (h : axes.length ≤ i) :
    axis_or_zero axes i = 0 := by
  unfold axis_or_zero
  rw [if_neg (by omega)]

/-- A button whose mapped index is missing reads false. -/
lemma pressed_default (buttons : List Bool) (i : Nat) (h : buttons.length ≤ i) :
    pressed buttons i = false := by
  unfold pressed
  rw [if_neg (by omega)]

/-- Claim C4: missing-index safety: every channel whose raw index is not
below the corresponding sequence length yields its default — `0` for a
stick axis, false for a button, the button fallback (or `0` when that is
missing too) for a trigger, `(0,0)` for the d-pad; all indexing in the
embedding is total, so no out-of-range access exists. -/
theorem missing_index_defaults (s : RawSnapshot) :
    (s.axes.length ≤ AXIS_LX → axis_or_zero s.axes AXIS_LX = 0) ∧
    (s.axes.length ≤ AXIS_LY → axis_or_zero s.axes AXIS_LY = 0) ∧
    (s.axes.length ≤ AXIS_RX → axis_or_zero s.axes AXIS_RX = 0) ∧
    (s.axes.length ≤ AXIS_RY → axis_or_zero s.axes AXIS_RY = 0) ∧
    (∀ i : Nat, s.buttons.length ≤ i → pressed s.buttons i = false) ∧
    (s.axes.length ≤ AXIS_L2 → s.buttons.length ≤ BTN_L2 → l2_val s = 0) ∧
    (s.axes.length ≤ AXIS_L2 → BTN_L2 < s.buttons.length →
      l2_val s = (if s.buttons.getD BTN_L2 false then 1 else 0)) ∧
    (s.axes.length ≤ AXIS_R2 → s.buttons.length ≤ BTN_R2 → r2_val s = 0) ∧
    (s.axes.length ≤ AXIS_R2 → BTN_R2 < s.buttons.length →
      r2_val s = (if s.buttons.getD BTN_R2 false then 1 else 0)) ∧
    (s.hats.length = 0 → dpad_vec s.hats = (0, 0)) := by
  refine ⟨fun h => axis_or_zero_default _ _ h, fun h => axis_or_zero_default _ _ h,
    fun h => axis_or_zero_default _ _ h, fun h => axis_or_zero_default _ _ h,
    fun i h => pressed_default _ _ h, ?_, ?_, ?_, ?_, ?_⟩
  · intro h1 h2
    unfold l2_val
    rw [if_neg (by omega), if_neg (by omega)]
  · intro h1 h2
    unfold l2_val
    rw [if_neg (by omega), if_pos (by omega)]
  · intro h1 h2
    unfold r2_val
    rw [if_neg (by omega), if_neg (by omega)]
  · intro h1 h2
    unfold r2_val
    rw [if_neg (by omega), if_pos (by omega)]
  · intro h
    unfold dpad_vec
    rw [if_neg (by omega)]

/-- Witness for claim C4 on the empty snapshot. -/
theorem missing_index_defaults_witness :
    axis_or_zero (RawSnapshot.mk [] [] []).axes AXIS_LX = 0 ∧
    pressed (RawSnapshot.mk [] [] []).buttons 13 = false ∧
    l2_val (RawSnapshot.mk [] [] []) = 0 ∧
    dpad_vec (RawSnapshot.mk [] [] []).hats = (0, 0) :=
  ⟨(missing_index_defaults ⟨[], [], []⟩).1 (Nat.zero_le _),
   (missing_index_defaults ⟨[], [], []⟩).2.2.2.2.1 13 (Nat.zero_le _),
   (missing_index_defaults ⟨[], [], []⟩).2.2.2.2.2.1 (Nat.zero_le _) (Nat.zero_le _),
   (missing_index_defaults ⟨[], [], []⟩).2.2.2.2.2.2.2.2.2 rfl⟩

/-- Claim C5: the deadzone increase/decrease operations step by exactly
`0.01` and clamp to `[0, 0.5]`: within bounds the result moves by `0.01`,
at the bounds it saturates (`increase 0.49 = 0.5 = increase 0.5`,
`decrease 0.01 = 0 = decrease 0`), and among all key events only K_UP and
K_DOWN mutate the deadzone, via exactly these two operations. -/
theorem deadzone_step_clamped (d : ℚ) (h0 : 0 ≤ d) (h1 : d ≤ 0.5) :
    (0 ≤ increase d ∧ increase d ≤ 0.5) ∧
    (0 ≤ decrease d ∧ decrease d ≤ 0.5) ∧
    (d + 0.01 ≤ 0.5 → increase d = d + 0.01) ∧
    (0.5 < d + 0.01 → increase d = 0.5) ∧
    (0 ≤ d - 0.01 → decrease d = d - 0.01) ∧
    (d - 0.01 < 0 → decrease d = 0) ∧
    increase 0.49 = 0.5 ∧ increase 0.5 = 0.5 ∧
    decrease 0.01 = 0 ∧ decrease 0 = 0 ∧
    (∀ (c : EngineConfig) (k : Key),
      (handle_keydown c k).deadzone ≠ c.deadzone → k = Key.k_up ∨ k = Key.k_down) ∧
    (∀ c : EngineConfig, (handle_keydown c Key.k_up).deadzone = decrease c.deadzone) ∧
    (∀ c : EngineConfig, (handle_keydown c Key.k_down).deadzone = increase c.deadzone) := by
  refine ⟨⟨?_, ?_⟩, ⟨?_, ?_⟩, ?_, ?_, ?_, ?_, ?_, ?_, ?_, ?_, ?_, ?_, ?_⟩
  · exact le_min (by norm_num) (by linarith)
  · exact min_le_left _ _
  · exact le_trans (by norm_num) (le_max_left _ _)
  · exact max_le (by norm_num) (by linarith)
  · intro h
    exact min_eq_right h
  · intro h
    exact min_eq_left (le_of_lt h)
  · intro h
    exact max_eq_right (by linarith)
  · intro h
    unfold decrease
    rw [max_eq_left (by linarith : d - 0.01 ≤ 0.0)]
    norm_num
  · norm_num [increase, min_def]
  · norm_num [increase, min_def]
  · norm_num [decrease, max_def]
  · norm_num [decrease, max_def]
  · intro c k hk
    cases k
    · exact absurd rfl hk
    · exact Or.inl rfl
    · exact Or.inr rfl
    · exact absurd rfl hk
    · exact absurd rfl hk
  · exact fun c => rfl
  · exact fun c => rfl

/-- Witness for claim C5 at the default deadzone `0.06`. -/
theorem deadzone_step_clamped_witness :
    increase 0.49 = 0.5 ∧ decrease 0.01 = 0 :=
  ⟨(deadzone_step_clamped 0.06 (by norm_num) (by norm_num)).2.2.2.2.2.2.1,
   (deadzone_step_clamped 0.06 (by norm_num) (by norm_num)).2.2.2.2.2.2.2.2.1⟩

/-- A stick inside the deadzone box is not classified as drifting. -/
lemma drifting_false_of (x y d : ℚ) (hx1 : -d ≤ x) (hx2 : x ≤ d)
    (hy1 : -d ≤ y) (hy2 : y ≤ d) : drifting x y d = false := by
  unfold drifting
  simp only [Bool.or_eq_false_iff, decide_eq_false_iff_not, not_lt]
  exact ⟨abs_le.mpr ⟨hx1, hx2⟩, abs_le.mpr ⟨hy1, hy2⟩⟩

/-- A stick whose x reading exceeds the deadzone is classified as drifting. -/
lemma drifting_true_of_x (x y d : ℚ) (hx : d < x) : drifting x y d = true := by
  unfold drifting
  have h : d < |x| := lt_of_lt_of_le hx (le_abs_self x)
  simp [h]

/-- Claim C6: on an empty device list the rescan clears any previously open
device and reports all-zero capabilities, the sampled snapshot is empty,
and normalizing it gives both sticks at `(0,0)` and not drifting, both
triggers `0`, every button false and d-pad `(0,0)`. -/
theorem no_device_defaults (prev : Option Joystick) (d : ℚ) (dbg : Bool)
    (h0 : 0 ≤ d) :
    find_joystick prev [] = none ∧
    capabilities (find_joystick prev []) = ⟨0, 0, 0⟩ ∧
    sample (find_joystick prev []) = ⟨[], [], []⟩ ∧
    normalize_frame ⟨d, dbg⟩ (capabilities (find_joystick prev []))
        (sample (find_joystick prev [])) =
      ⟨⟨0, 0, false⟩, ⟨0, 0, false⟩, 0, 0, false, false, false, false, false,
        false, (0, 0), ⟨0, 0, 0⟩, d, dbg⟩ := by
  refine ⟨rfl, rfl, rfl, ?_⟩
  have hd : drifting 0 0 d = false :=
    drifting_false_of 0 0 d (by linarith) h0 (by linarith) h0
  have hnt : norm_trigger 0 = 0 := by norm_num [norm_trigger]
  show FrameSnapshot.mk ⟨0, 0, drifting 0 0 d⟩ ⟨0, 0, drifting 0 0 d⟩
      (norm_trigger 0) (norm_trigger 0) false false false false false false
      (0, 0) ⟨0, 0, 0⟩ d dbg = _
  rw [hd, hnt]

/-- Witness for claim C6 at the default deadzone `0.06`. -/
theorem no_device_defaults_witness :
    find_joystick (some demo_joystick) [] = none ∧
    capabilities (find_joystick (some demo_joystick) []) = ⟨0, 0, 0⟩ :=
  ⟨(no_device_defaults (some demo_joystick) 0.06 true (by norm_num)).1,
   (no_device_defaults (some demo_joystick) 0.06 true (by norm_num)).2.1⟩

/-- Claim C7: end-to-end: with capabilities `{axes 6, buttons 14, hats 1}`,
raw axes `[0.02, -0.01, 0.9, 0.0, -0.5, 0.8]` and deadzone `0.06`, the
left stick `(0.02, -0.01)` is not drifting, the right stick `(0.9, 0.0)`
is drifting, L2 raw `-0.5` normalizes to `0.25` and R2 raw `0.8`
normalizes to `0.8`. -/
theorem end_to_end_pipeline :
    capabilities (some demo_joystick) = ⟨6, 14, 1⟩ ∧
    (normalize_frame ⟨0.06, true⟩ (capabilities (some demo_joystick))
        (sample (some demo_joystick))).left = ⟨0.02, -0.01, false⟩ ∧
    (normalize_frame ⟨0.06, true⟩ (capabilities (some demo_joystick))
        (sample (some demo_joystick))).right = ⟨0.9, 0.0, true⟩ ∧
    (normalize_frame ⟨0.06, true⟩ (capabilities (some demo_joystick))
        (sample (some demo_joystick))).l2 = 0.25 ∧
    (normalize_frame ⟨0.06, true⟩ (capabilities (some demo_joystick))
        (sample (some demo_joystick))).r2 = 0.8 := by
  refine ⟨rfl, ?_, ?_, ?_, ?_⟩
  · show (⟨0.02, -0.01, drifting 0.02 (-0.01) 0.06⟩ : StickState) = ⟨0.02, -0.01, false⟩
    rw [drifting_false_of 0.02 (-0.01) 0.06 (by norm_num) (by norm_num)
      (by norm_num) (by norm_num)]
  · show (⟨0.9, 0.0, drifting 0.9 0.0 0.06⟩ : StickState) = ⟨0.9, 0.0, true⟩
    rw [drifting_true_of_x 0.9 0.0 0.06 (by norm_num)]
  · show norm_trigger (-0.5) = 0.25
    norm_num [norm_trigger]
  · show norm_trigger 0.8 = 0.8
    norm_num [norm_trigger]

/-- Claim C8: frame condition on the engine config: a tick's config is
exactly the event-phase fold — the polling/normalization/classification
phase contributes nothing — a tick with no events leaves the config
untouched, and among key events only K_UP/K_DOWN change the deadzone and
only K_D changes the debug flag. -/
theorem config_frame_condition :
    (∀ (c : EngineConfig) (events : List Key) (joy : Option Joystick),
      (tick c events joy).1 = events.foldl handle_keydown c) ∧
    (∀ (c : EngineConfig) (joy : Option Joystick), (tick c [] joy).1 = c) ∧
    (∀ (c : EngineConfig) (k : Key), k ≠ Key.k_up → k ≠ Key.k_down →
      (handle_keydown c k).deadzone = c.deadzone) ∧
    (∀ (c : EngineConfig) (k : Key), k ≠ Key.k_d →
      (handle_keydown c k).show_debug = c.show_debug) := by
  refine ⟨fun c events joy => rfl, fun c joy => rfl, ?_, ?_⟩
  · intro c k h1 h2
    cases k
    · rfl
    · exact absurd rfl h1
    · exact absurd rfl h2
    · rfl
    · rfl
  · intro c k h1
    cases k
    · exact absurd rfl h1
    · rfl
    · rfl
    · rfl
    · rfl

/-- Witness for claim C8: the vibration-test key changes neither config
field. -/
theorem config_frame_condition_witness :
    (handle_keydown ⟨0.06, true⟩ Key.k_v).deadzone = (0.06 : ℚ) ∧
    (handle_keydown ⟨0.06, true⟩ Key.k_v).show_debug = true :=
  ⟨config_frame_condition.2.2.1 ⟨0.06, true⟩ Key.k_v
      (fun h => Key.noConfusion h) (fun h => Key.noConfusion h),
   config_frame_condition.2.2.2 ⟨0.06, true⟩ Key.k_v
      (fun h => Key.noConfusion h)⟩

end DriftTester
